import Mathlib

/-!
Shallow embedding of the face-asset upload pipeline:
`src/services/ProfileService.ts` (checkUploadLimit, uploadFaceImage,
removeFaceImage) and the Supabase edge function `process-face`
(the Deno.serve handler), over a per-user state consisting of the
per-user `profiles` row, the `face_upload_logs` rows, and the
`user-faces` storage bucket.  Every operation in the source touches
only the rows of the one user it is called for, so the state is
modelled per user; the user id still appears as a string parameter
because it is baked into storage paths.  JS numbers that carry
fractional transform parameters are modelled as rationals; timestamps
are integers in milliseconds (JS `Date.getTime()`).
-/

/-- The `face_state` enum of the `profiles` table
(migration: CHECK face_state IN (none, pending, approved, rejected, flagged)). -/
inductive FaceState
  | none
  | pending
  | approved
  | rejected
  | flagged
deriving DecidableEq, Repr

/-- The `outcome` enum of the `face_upload_logs` table
(migration: CHECK outcome IN (pending, accepted, rejected, flagged)). -/
inductive Outcome
  | pending
  | accepted
  | rejected
  | flagged
deriving DecidableEq, Repr

/-- The optional transform parameters of the `face_meta` field of a
`ProcessFaceRequest` (part_000, interface ProcessFaceRequest): each of
scale, rotation, offsetX, offsetY may be absent. -/
structure ReqMeta where
  scale : Option ℚ
  rotation : Option ℚ
  offsetX : Option ℚ
  offsetY : Option ℚ
deriving DecidableEq, Repr

/-- A `face_meta` JSON value as stored on a profile row.  The migration
default carries only the four transform fields, so width and height are
optional; the edge function writes them as 512. -/
structure Meta where
  width : Option ℕ
  height : Option ℕ
  scale : ℚ
  rotation : ℚ
  offsetX : ℚ
  offsetY : ℚ
deriving DecidableEq, Repr

/-- The migration default for `face_meta`:
jsonb default scale 1.0, rotation 0, offsetX 0, offsetY 0 (no width/height). -/
def defaultMeta : Meta :=
  { width := Option.none, height := Option.none
    scale := 1, rotation := 0, offsetX := 0, offsetY := 0 }

/-- One `profiles` row (migration table `profiles`; the `id` and `user_id`
columns are dropped because the state is already per user). -/
structure Profile where
  face_path : Option String
  face_url : Option String
  face_version : ℕ
  face_state : FaceState
  face_meta : Meta
  upload_count_today : ℕ
  last_upload_reset : ℤ
  updated_at : ℤ
deriving DecidableEq, Repr

/-- The migration defaults for a freshly created profile row:
face_path/face_url NULL, face_version 0, face_state none,
upload_count_today 0, last_upload_reset now. -/
def freshProfile (now : ℤ) : Profile :=
  { face_path := Option.none, face_url := Option.none
    face_version := 0, face_state := FaceState.none
    face_meta := defaultMeta
    upload_count_today := 0, last_upload_reset := now, updated_at := now }

/-- One `face_upload_logs` row (migration table `face_upload_logs`). -/
structure UploadLog where
  upload_id : String
  user_id : String
  raw_path : String
  processed_path : Option String
  outcome : Outcome
  reason : Option String
  file_size : Option ℕ
  mime_type : Option String
deriving DecidableEq, Repr

/-- A stored blob in the `user-faces` bucket: its bytes and the content
type it was uploaded with.  A download returns the blob; `fileData.size`
is the byte length and `fileData.type` the stored content type. -/
structure Blob where
  bytes : List ℕ
  contentType : String
deriving DecidableEq, Repr

/-- The per-user state: the `profiles` row of the user (if any), the
`face_upload_logs` rows, and the `user-faces` bucket contents keyed by
path.  The storage list is read through `List.lookup`, so a later cons
shadows an earlier entry at the same path (upsert overwrite). -/
structure DB where
  profile : Option Profile
  logs : List UploadLog
  storage : List (String × Blob)
deriving DecidableEq, Repr

/-- Storage download: `supabase.storage.from(user-faces).download(path)`.
A `none` result is the download-error case (object missing or store
outage). -/
def DB.download (db : DB) (path : String) : Option Blob :=
  db.storage.lookup path

/-- Storage upload with `upsert: true` (the write of the edge function for the
processed asset): always succeeds, overwriting any blob at the path. -/
def storagePutUpsert (st : List (String × Blob)) (path : String) (b : Blob) :
    List (String × Blob) :=
  (path, b) :: st

/-- Storage upload with `upsert: false` (the raw write of the orchestrator):
fails (returns `none`) when the path is already occupied. -/
def storagePutFresh (st : List (String × Blob)) (path : String) (b : Blob) :
    Option (List (String × Blob)) :=
  if (st.lookup path).isSome then Option.none else Option.some ((path, b) :: st)

/-- Update every log row with the given upload_id
(`.update(fields).eq(upload_id, uploadId)`). -/
def updateLogs (logs : List UploadLog) (uploadId : String)
    (f : UploadLog → UploadLog) : List UploadLog :=
  logs.map (fun l => if l.upload_id = uploadId then f l else l)

/-- The allowed MIME types, identical lists in ProfileService.ts line 117
and part_000 line 63. -/
def allowedTypes : List String :=
  ["image/jpeg", "image/jpg", "image/png", "image/webp"]

/-- The 5 MiB size ceiling, written `5 * 1024 * 1024` at both sites. -/
def sizeLimit : ℕ := 5 * 1024 * 1024

/-- Local admission (ProfileService.ts lines 113-120): size checked
first, then MIME type; returns the rejection reason, or none when the
file passes. -/
def validateLocal (fileSize : ℕ) (mimeType : String) : Option String :=
  if fileSize > sizeLimit then
    Option.some "File size exceeds 5MB limit"
  else if ¬ (allowedTypes.contains mimeType) then
    Option.some "Invalid file type. Only JPG, PNG, and WebP allowed."
  else
    Option.none

/-- Server-side re-validation inside the edge function (part_000 lines
48-77): same threshold and order; the reason written to the log row. -/
def validateServer (fileSize : ℕ) (mimeType : String) : Option String :=
  if fileSize > sizeLimit then
    Option.some "File size exceeds 5MB limit"
  else if ¬ (allowedTypes.contains mimeType) then
    Option.some "Invalid file type. Only JPG, PNG, and WebP allowed."
  else
    Option.none

/-- JS `x || d` on an optional number: the default is taken when the
field is absent, and also when the supplied value is 0, because 0 is
falsy in JS. -/
def jsOr (x : Option ℚ) (d : ℚ) : ℚ :=
  match x with
  | Option.none => d
  | Option.some v => if v = 0 then d else v

/-- The meta normalization of the edge function (part_000 lines 108-115):
width/height fixed at 512, each transform field `face_meta?.f || default`. -/
def normalizeMeta (m : Option ReqMeta) : Meta :=
  { width := Option.some 512
    height := Option.some 512
    scale := jsOr (m.bind ReqMeta.scale) 1
    rotation := jsOr (m.bind ReqMeta.rotation) 0
    offsetX := jsOr (m.bind ReqMeta.offsetX) 0
    offsetY := jsOr (m.bind ReqMeta.offsetY) 0 }

/-- The body of a `ProcessFaceRequest` (part_000 lines 10-20). -/
structure ProcessReq where
  user_id : String
  raw_path : String
  upload_id : String
  face_meta : Option ReqMeta
deriving DecidableEq, Repr

/-- The HTTP response of the edge function, flattened: `ok` with the payload
fields, or `err` with the status code and error string. -/
inductive ProcessResult
  | ok (face_url : String) (face_version : ℕ) (meta : Meta)
  | err (status : ℕ) (error : String)
deriving DecidableEq, Repr

def ProcessResult.isOk : ProcessResult → Bool
  | ProcessResult.ok _ _ _ => true
  | ProcessResult.err _ _ => false

/-- Public URL resolution (`getPublicUrl`): the public URL root of the bucket
followed by the object path; the root is abstracted to a constant
string since nothing depends on its exact value. -/
def publicUrl (path : String) : String :=
  "https://example.supabase.co/storage/v1/object/public/user-faces/" ++ path

/-- The processed-asset path (part_000 line 86):
faces/ user_id / newVersion .webp. -/
def processedPathFor (userId : String) (version : ℕ) : String :=
  "faces/" ++ userId ++ "/" ++ toString version ++ ".webp"

/-- The `process-face` edge function (part_000, the Deno.serve handler).
Step order as in the source: download the raw blob (a failed download
throws, is caught by the outer try/catch and becomes a plain 500
response, with no log or profile write); re-validate size then MIME
type, each failure marking the log rejected with the reason and
returning 400; read `face_version` (`(profile?.face_version || 0) + 1`);
upsert the raw bytes to the canonical path with contentType image/webp;
normalize the meta; update the profile row (a missing row matches
nothing, so nothing is written); mark the log accepted; return the
payload. -/
def processFace (now : ℤ) (req : ProcessReq) (db : DB) : ProcessResult × DB :=
  match db.download req.raw_path with
  | Option.none =>
      (ProcessResult.err 500 "Failed to download file", db)
  | Option.some blob =>
      let fileSize := blob.bytes.length
      let mimeType := blob.contentType
      if fileSize > sizeLimit then
        (ProcessResult.err 400 "File size exceeds 5MB limit",
         { db with logs := updateLogs db.logs req.upload_id (fun l =>
             { l with outcome := Outcome.rejected
                      reason := Option.some "File size exceeds 5MB limit" }) })
      else if ¬ (allowedTypes.contains mimeType) then
        (ProcessResult.err 400 "Invalid file type",
         { db with logs := updateLogs db.logs req.upload_id (fun l =>
             { l with outcome := Outcome.rejected
                      reason := Option.some
                        "Invalid file type. Only JPG, PNG, and WebP allowed." }) })
      else
        let newVersion :=
          (match db.profile with
           | Option.some p => p.face_version
           | Option.none => 0) + 1
        let processedPath := processedPathFor req.user_id newVersion
        let storage2 := storagePutUpsert db.storage processedPath
          { bytes := blob.bytes, contentType := "image/webp" }
        let face_url := publicUrl processedPath
        let meta := normalizeMeta req.face_meta
        let profile2 :=
          match db.profile with
          | Option.some p => Option.some
              { p with face_path := Option.some processedPath
                       face_url := Option.some face_url
                       face_version := newVersion
                       face_state := FaceState.approved
                       face_meta := meta
                       updated_at := now }
          | Option.none => Option.none
        let logs2 := updateLogs db.logs req.upload_id (fun l =>
          { l with processed_path := Option.some processedPath
                   outcome := Outcome.accepted
                   file_size := Option.some fileSize
                   mime_type := Option.some mimeType })
        (ProcessResult.ok face_url newVersion meta,
         { profile := profile2, logs := logs2, storage := storage2 })

/-- `checkUploadLimit` (ProfileService.ts lines 65-97).  A missing
profile row answers allowed with the full quota and writes nothing.
`hoursSinceReset` is the elapsed milliseconds divided by 1000*60*60
(exact rational division here; the comparison against 24 is the same);
at or past 24 hours the counter is reset and persisted.  Otherwise
`canUpload = upload_count_today < 3` and
`remaining = max(0, 3 - upload_count_today)` with no write. -/
def checkUploadLimit (now : ℤ) (db : DB) : (Bool × ℤ) × DB :=
  match db.profile with
  | Option.none => ((true, 3), db)
  | Option.some p =>
      let hoursSinceReset : ℚ := ((now - p.last_upload_reset : ℤ) : ℚ) / (1000 * 60 * 60)
      if hoursSinceReset ≥ 24 then
        ((true, 3),
         { db with profile := Option.some ({ p with
             upload_count_today := 0, last_upload_reset := now }) })
      else
        ((decide (p.upload_count_today < 3), max 0 (3 - (p.upload_count_today : ℤ))), db)

/-- The raw file handed to `uploadFaceImage`: name (its extension feeds
the raw path), bytes (`file.size` is their length), and the
client-claimed MIME type. -/
structure FileInput where
  name : String
  bytes : List ℕ
  type : String
deriving DecidableEq, Repr

/-- `file.name.split(period).pop()`: the part after the last dot,
computed on the character list of the name (same result as splitting the
string, stated over a kernel-reducible recursion). -/
def fileExt (name : String) : String :=
  String.mk ((name.toList.splitOn '.').getLastD [])

/-- The raw-upload path (ProfileService.ts line 123):
user-uploads/raw/ userId / uploadId . ext. -/
def rawPathFor (userId : String) (uploadId : String) (ext : String) : String :=
  "user-uploads/raw/" ++ userId ++ "/" ++ uploadId ++ "." ++ ext

inductive SubmitResult
  | ok (face_url : String)
  | err (error : String)
deriving DecidableEq, Repr

/-- `uploadFaceImage` (ProfileService.ts lines 99-179), the upload
orchestrator.  `uploadId` stands for the `crypto.randomUUID()` value.
Steps in source order: rate-limit check (its lazy reset may write the
profile even when a later step rejects); local size then MIME
validation; raw upload with upsert false; insert of the pending log
row; the profiles update at lines 145-151, whose payload passes the
un-awaited builder `supabase.rpc(increment, x 1)` as the new
`upload_count_today` value — no `increment` function exists in the
migrations of the repository and the serialized builder is not an integer,
so the row store rejects the whole update and, the error being
unchecked, execution continues with the row unchanged (modelled as a
no-op); finally the call to the process-face function, whose result is
propagated. -/
def uploadFaceImage (now : ℤ) (userId : String) (uploadId : String)
    (file : FileInput) (faceMeta : ReqMeta) (db : DB) : SubmitResult × DB :=
  let r1 := checkUploadLimit now db
  let canUpload := r1.1.1
  let remaining := r1.1.2
  let db1 := r1.2
  if ¬ canUpload then
    (SubmitResult.err ("Upload limit reached. " ++ toString remaining ++
      " uploads remaining. Try again in 24 hours."), db1)
  else match validateLocal file.bytes.length file.type with
  | Option.some reason => (SubmitResult.err reason, db1)
  | Option.none =>
    let rawPath := rawPathFor userId uploadId (fileExt file.name)
    match storagePutFresh db1.storage rawPath
      ({ bytes := file.bytes, contentType := file.type } : Blob) with
    | Option.none => (SubmitResult.err "Upload failed: resource already exists", db1)
    | Option.some storage2 =>
        let newLog : UploadLog :=
          { upload_id := uploadId, user_id := userId, raw_path := rawPath
            processed_path := Option.none, outcome := Outcome.pending
            reason := Option.none
            file_size := Option.some file.bytes.length
            mime_type := Option.some file.type }
        let db3 : DB := { db1 with storage := storage2, logs := db1.logs ++ [newLog] }
        let db4 := db3
        let r2 := processFace now
          { user_id := userId, raw_path := rawPath, upload_id := uploadId
            face_meta := Option.some faceMeta } db4
        match r2.1 with
        | ProcessResult.ok url _ _ => (SubmitResult.ok url, r2.2)
        | ProcessResult.err _ e => (SubmitResult.err e, r2.2)

/-- `removeFaceImage` (ProfileService.ts lines 181-198): null out
face_url and face_path, set face_state none, touch updated_at. -/
def removeFaceImage (now : ℤ) (db : DB) : Bool × DB :=
  match db.profile with
  | Option.none => (true, db)
  | Option.some p =>
      (true,
       { db with profile := Option.some ({ p with
           face_url := Option.none, face_path := Option.none
           face_state := FaceState.none, updated_at := now }) })

/-- The `(profile?.face_version || 0)` read in part_000 line 85: the
current face_version, or 0 when the profile row is missing. -/
def currentVersion (db : DB) : ℕ :=
  match db.profile with
  | Option.some p => p.face_version
  | Option.none => 0

/-- The path/state invariant on one profile row: `face_path` and
`face_url` are non-null exactly when `face_state` is approved. -/
def pathStateInv (p : Profile) : Prop :=
  (p.face_path.isSome = true ↔ p.face_state = FaceState.approved) ∧
  (p.face_url.isSome = true ↔ p.face_state = FaceState.approved)

/-- The invariant lifted to the per-user state (vacuous when no profile
row exists yet). -/
def DBInv (db : DB) : Prop :=
  ∀ p, db.profile = Option.some p → pathStateInv p

/-- Iterate the processing function over a list of requests (remote
calls executed sequentially). -/
def processSeq (now : ℤ) (reqs : List ProcessReq) (db : DB) : DB :=
  match reqs with
  | [] => db
  | r :: rs => processSeq now rs (processFace now r db).2

/-- Every call in the sequence returns the success response. -/
def seqOk (now : ℤ) : List ProcessReq → DB → Bool
  | [], _ => true
  | r :: rs, db => (processFace now r db).1.isOk && seqOk now rs (processFace now r db).2

/-- The rate limiter exactly as the words of the spec state it, for
comparison with `checkUploadLimit`: the elapsed-time test is phrased
directly on milliseconds (`now - last_upload_reset >= 24h`). -/
def checkUploadLimitSpec (now : ℤ) (db : DB) : (Bool × ℤ) × DB :=
  match db.profile with
  | Option.none => ((true, 3), db)
  | Option.some p =>
      if now - p.last_upload_reset ≥ 24 * 60 * 60 * 1000 then
        ((true, 3),
         { db with profile := Option.some ({ p with
             upload_count_today := 0, last_upload_reset := now }) })
      else
        ((decide (p.upload_count_today < 3), max 0 (3 - (p.upload_count_today : ℤ))), db)

/-- An all-absent transform-parameter record. -/
def emptyReqMeta : ReqMeta :=
  { scale := Option.none, rotation := Option.none
    offsetX := Option.none, offsetY := Option.none }

/-- A pending log row for upload up-1 of user u1 whose raw object is
missing from storage (simulated store outage). -/
def c1Log : UploadLog :=
  { upload_id := "up-1", user_id := "u1"
    raw_path := "user-uploads/raw/u1/up-1.png"
    processed_path := Option.none, outcome := Outcome.pending
    reason := Option.none, file_size := Option.some 3
    mime_type := Option.some "image/png" }

def c1Profile : Profile :=
  { freshProfile 0 with face_state := FaceState.pending }

def c1DB : DB :=
  { profile := Option.some c1Profile, logs := [c1Log], storage := [] }

def c1Req : ProcessReq :=
  { user_id := "u1", raw_path := "user-uploads/raw/u1/up-1.png"
    upload_id := "up-1", face_meta := Option.none }

/-- A valid 1-byte png file. -/
def smallPng : FileInput :=
  { name := "a.png", bytes := [7], type := "image/png" }

/-- A profile that has already used one upload in the current window. -/
def c3Profile : Profile :=
  { freshProfile 0 with upload_count_today := 1 }

def c3DB : DB :=
  { profile := Option.some c3Profile, logs := [], storage := [] }

/-- A file larger than the 5 MiB ceiling (its bytes reduced through
`List.length_replicate`, never enumerated). -/
def bigPng : FileInput :=
  { name := "b.png", bytes := List.replicate (sizeLimit + 1) 0, type := "image/png" }

/-- A profile whose quota is spent but whose 24h window has expired at
time 90000000 ms (25 hours after the last reset at 0). -/
def c9Profile : Profile :=
  { freshProfile 0 with upload_count_today := 3 }

def c9DB : DB :=
  { profile := Option.some c9Profile, logs := [], storage := [] }

/-- A state whose stored blob for c1Req has a disallowed MIME type. -/
def c5DB : DB :=
  { profile := Option.none, logs := []
    storage := [(c1Req.raw_path, { bytes := [1], contentType := "text/plain" })] }

/-- A state holding a raw png blob at the raw path of c1Req plus a
fresh profile, for exercising consecutive successful processing
calls. -/
def c7DB : DB :=
  { profile := Option.some (freshProfile 0), logs := [c1Log]
    storage := [("user-uploads/raw/u1/up-1.png",
      { bytes := [1, 2, 3], contentType := "image/png" })] }

/-- Transform parameters with a fractional scale, a rotation, an
explicit zero offsetX and an absent offsetY. -/
def c8Meta : ReqMeta :=
  { scale := Option.some (3 / 2), rotation := Option.some 10
    offsetX := Option.some 0, offsetY := Option.none }

def c8Req : ProcessReq :=
  { user_id := "u1", raw_path := "user-uploads/raw/u1/up-1.png"
    upload_id := "up-1", face_meta := Option.some c8Meta }

/-- Transform parameters with an explicit zero scale. -/
def zeroScaleMeta : ReqMeta :=
  { scale := Option.some 0, rotation := Option.none
    offsetX := Option.none, offsetY := Option.none }

/-- Unfolding lemma: a failed download returns a plain 500 response and
leaves the whole state unchanged (the throw at part_000 line 42 skips
every log and profile write). -/
theorem processFace_download_fail (now : ℤ) (req : ProcessReq) (db : DB)
    (hdl : db.download req.raw_path = Option.none) :
    processFace now req db = (ProcessResult.err 500 "Failed to download file", db) := by
  unfold processFace
  rw [hdl]

/-- Unfolding lemma: an oversized blob is rejected with the size reason
written to the log; storage and profile are untouched. -/
theorem processFace_reject_size (now : ℤ) (req : ProcessReq) (db : DB) (blob : Blob)
    (hdl : db.download req.raw_path = Option.some blob)
    (hsz : blob.bytes.length > sizeLimit) :
    processFace now req db =
      (ProcessResult.err 400 "File size exceeds 5MB limit",
       { db with logs := updateLogs db.logs req.upload_id (fun l =>
           { l with outcome := Outcome.rejected
                    reason := Option.some "File size exceeds 5MB limit" }) }) := by
  unfold processFace
  rw [hdl]
  simp [hsz]

/-- Unfolding lemma: a disallowed MIME type is rejected with the type
reason written to the log; storage and profile are untouched. -/
theorem processFace_reject_mime (now : ℤ) (req : ProcessReq) (db : DB) (blob : Blob)
    (hdl : db.download req.raw_path = Option.some blob)
    (hsz : ¬ blob.bytes.length > sizeLimit)
    (hmt : allowedTypes.contains blob.contentType = false) :
    processFace now req db =
      (ProcessResult.err 400 "Invalid file type",
       { db with logs := updateLogs db.logs req.upload_id (fun l =>
           { l with outcome := Outcome.rejected
                    reason := Option.some
                      "Invalid file type. Only JPG, PNG, and WebP allowed." }) }) := by
  unfold processFace
  rw [hdl]
  simp [hsz]
  simpa using hmt

/-- Unfolding lemma: the success branch, spelled out. -/
theorem processFace_ok (now : ℤ) (req : ProcessReq) (db : DB) (blob : Blob)
    (hdl : db.download req.raw_path = Option.some blob)
    (hsz : ¬ blob.bytes.length > sizeLimit)
    (hmt : allowedTypes.contains blob.contentType = true) :
    processFace now req db =
      (ProcessResult.ok (publicUrl (processedPathFor req.user_id (currentVersion db + 1)))
        (currentVersion db + 1) (normalizeMeta req.face_meta),
       { profile :=
           match db.profile with
           | Option.some p => Option.some ({ p with
               face_path := Option.some (processedPathFor req.user_id (currentVersion db + 1))
               face_url := Option.some (publicUrl (processedPathFor req.user_id (currentVersion db + 1)))
               face_version := currentVersion db + 1
               face_state := FaceState.approved
               face_meta := normalizeMeta req.face_meta
               updated_at := now })
           | Option.none => Option.none
         logs := updateLogs db.logs req.upload_id (fun l =>
           { l with processed_path := Option.some (processedPathFor req.user_id (currentVersion db + 1))
                    outcome := Outcome.accepted
                    file_size := Option.some blob.bytes.length
                    mime_type := Option.some blob.contentType })
         storage := storagePutUpsert db.storage (processedPathFor req.user_id (currentVersion db + 1))
           { bytes := blob.bytes, contentType := "image/webp" } }) := by
  unfold processFace currentVersion
  rw [hdl]
  simp [hsz, show blob.contentType ∈ allowedTypes by simpa using hmt]

/-- The exact-division comparison the limiter computes agrees with the
direct millisecond comparison. -/
theorem hoursGe_iff (d : ℤ) :
    ((d : ℚ) / (1000 * 60 * 60) ≥ 24) ↔ d ≥ 24 * 60 * 60 * 1000 := by
  rw [ge_iff_le, le_div_iff₀ (by norm_num : (0 : ℚ) < 1000 * 60 * 60), ge_iff_le]
  constructor
  · intro h
    have h2 : ((24 * 60 * 60 * 1000 : ℤ) : ℚ) ≤ (d : ℚ) := by
      calc ((24 * 60 * 60 * 1000 : ℤ) : ℚ) = 24 * (1000 * 60 * 60) := by norm_num
      _ ≤ (d : ℚ) := h
    exact_mod_cast h2
  · intro h
    calc (24 * (1000 * 60 * 60) : ℚ) = ((24 * 60 * 60 * 1000 : ℤ) : ℚ) := by norm_num
    _ ≤ (d : ℚ) := by exact_mod_cast h

/-- The limiter never touches the log rows or the storage bucket. -/
theorem checkUploadLimit_logs_storage (now : ℤ) (db : DB) :
    (checkUploadLimit now db).2.logs = db.logs ∧
    (checkUploadLimit now db).2.storage = db.storage := by
  unfold checkUploadLimit
  cases hp : db.profile with
  | none => exact ⟨rfl, rfl⟩
  | some p =>
      dsimp only
      split <;> exact ⟨rfl, rfl⟩

/-- The limiter agrees everywhere with its direct millisecond
restatement (the division by 1000*60*60 is exact, so comparing the
quotient with 24 is comparing the difference with 24h of
milliseconds). -/
theorem checkUploadLimit_eq_spec (now : ℤ) (db : DB) :
    checkUploadLimit now db = checkUploadLimitSpec now db := by
  unfold checkUploadLimit checkUploadLimitSpec
  cases hp : db.profile with
  | none => rfl
  | some p =>
      dsimp only
      by_cases hc : now - p.last_upload_reset ≥ 24 * 60 * 60 * 1000
      · rw [if_pos ((hoursGe_iff (now - p.last_upload_reset)).mpr hc), if_pos hc]
      · rw [if_neg (fun h => hc ((hoursGe_iff (now - p.last_upload_reset)).mp h)), if_neg hc]

/-- C4: checkUploadLimit answers allowed with the full quota of 3 and
writes nothing when the profile row is missing; when at least 24 hours
have elapsed since last_upload_reset it resets the counter to 0, stamps
last_upload_reset with now, persists the row, and answers allowed with
remaining 3; otherwise it answers allowed exactly when
upload_count_today is below 3 with remaining max(0, 3 - count) and
mutates nothing. -/
theorem C4_rate_limiter (now : ℤ) (db : DB) :
    checkUploadLimit now db = checkUploadLimitSpec now db :=
  checkUploadLimit_eq_spec now db

/-- C1 (amended): when the download of the raw blob fails, the
processing function returns an error and leaves the entire state — the
UploadLog rows included — unchanged: the face_state of the Profile keeps its
prior value and is never set to approved, but the UploadLog row is NOT
transitioned to rejected (the failed download throws past every log
write). -/
theorem C1_download_failure (now : ℤ) (req : ProcessReq) (db : DB)
    (hdl : db.download req.raw_path = Option.none) :
    (processFace now req db).1 = ProcessResult.err 500 "Failed to download file" ∧
    (processFace now req db).2 = db := by
  rw [processFace_download_fail now req db hdl]
  exact ⟨rfl, rfl⟩

/-- C1 witness: a concrete pending upload whose raw object is missing. -/
theorem C1_download_failure_witness :
    c1DB.download c1Req.raw_path = Option.none ∧
    ((processFace 0 c1Req c1DB).1 = ProcessResult.err 500 "Failed to download file" ∧
     (processFace 0 c1Req c1DB).2 = c1DB) :=
  ⟨by decide, C1_download_failure 0 c1Req c1DB (by decide)⟩

/-- C1 counterexample: the claim as stated is false — at this concrete
input the download fails, yet the UploadLog row stays at outcome
pending with no reason, rather than transitioning to rejected with
reason "download failed". -/
theorem C1_counterexample :
    c1DB.download c1Req.raw_path = Option.none ∧
    (processFace 0 c1Req c1DB).2.logs = [c1Log] ∧
    c1Log.outcome = Outcome.pending ∧
    c1Log.reason = Option.none ∧
    Outcome.pending ≠ Outcome.rejected := by
  decide

/-- The lazy reset of the limiter touches only the counter fields, so it
preserves the path/state invariant. -/
theorem checkUploadLimit_inv (now : ℤ) (db : DB) (h : DBInv db) :
    DBInv (checkUploadLimit now db).2 := by
  unfold checkUploadLimit
  cases hp : db.profile with
  | none => simpa using h
  | some p =>
      dsimp only
      split
      · intro q hq
        simp only [Option.some.injEq] at hq
        have hinv := h p hp
        rw [← hq]
        exact ⟨hinv.1, hinv.2⟩
      · exact h

/-- Every branch of the processing function preserves the path/state
invariant: rejections leave the profile row alone, and the success
branch writes face_path, face_url and face_state approved together. -/
theorem processFace_inv (now : ℤ) (req : ProcessReq) (db : DB) (h : DBInv db) :
    DBInv (processFace now req db).2 := by
  cases hdl : db.download req.raw_path with
  | none =>
      rw [processFace_download_fail now req db hdl]
      exact h
  | some blob =>
      by_cases hsz : blob.bytes.length > sizeLimit
      · rw [processFace_reject_size now req db blob hdl hsz]
        intro q hq
        exact h q hq
      · cases hmt : allowedTypes.contains blob.contentType with
        | false =>
            rw [processFace_reject_mime now req db blob hdl hsz hmt]
            intro q hq
            exact h q hq
        | true =>
            rw [processFace_ok now req db blob hdl hsz hmt]
            intro q hq
            cases hp : db.profile with
            | none => simp [hp] at hq
            | some p =>
                simp only [hp, Option.some.injEq] at hq
                rw [← hq]
                exact ⟨by simp, by simp⟩

/-- Removal clears face_path and face_url exactly when it moves the
state back to none, so it preserves the invariant. -/
theorem removeFaceImage_inv (now : ℤ) (db : DB) (h : DBInv db) :
    DBInv (removeFaceImage now db).2 := by
  unfold removeFaceImage
  cases hp : db.profile with
  | none => simpa using h
  | some p =>
      intro q hq
      simp only [Option.some.injEq] at hq
      rw [← hq]
      exact ⟨by simp, by simp⟩

/-- The orchestrator changes the profile row only through the limiter
and the processing call, so it preserves the invariant too. -/
theorem uploadFaceImage_inv (now : ℤ) (userId uploadId : String) (file : FileInput)
    (fm : ReqMeta) (db : DB) (h : DBInv db) :
    DBInv (uploadFaceImage now userId uploadId file fm db).2 := by
  have h1 : DBInv (checkUploadLimit now db).2 := checkUploadLimit_inv now db h
  unfold uploadFaceImage
  dsimp only
  split
  · exact h1
  · split
    · exact h1
    · split
      · exact h1
      · split <;>
        · exact processFace_inv _ _ _ (fun q hq => h1 q hq)

/-- C2: a freshly created profile row satisfies the invariant that
face_path and face_url are non-null iff face_state is approved, and
every pipeline operation — submit (uploadFaceImage), process
(processFace), remove (removeFaceImage) — preserves it. -/
theorem C2_path_url_iff_approved (now nowP nowR : ℤ) (userId uploadId : String)
    (file : FileInput) (fm : ReqMeta) (req : ProcessReq) (db : DB) (h : DBInv db) :
    pathStateInv (freshProfile now) ∧
    DBInv (uploadFaceImage now userId uploadId file fm db).2 ∧
    DBInv (processFace nowP req db).2 ∧
    DBInv (removeFaceImage nowR db).2 :=
  ⟨⟨by simp [freshProfile], by simp [freshProfile]⟩,
   uploadFaceImage_inv now userId uploadId file fm db h,
   processFace_inv nowP req db h,
   removeFaceImage_inv nowR db h⟩

/-- C2 witness: the invariant hypothesis holds for a concrete state
(a fresh profile) and the theorem applies to it. -/
theorem C2_path_url_iff_approved_witness :
    pathStateInv (freshProfile 0) ∧
    DBInv (uploadFaceImage 0 "u1" "up-1" smallPng emptyReqMeta c3DB).2 ∧
    DBInv (processFace 0 c1Req c3DB).2 ∧
    DBInv (removeFaceImage 0 c3DB).2 :=
  C2_path_url_iff_approved 0 0 0 "u1" "up-1" smallPng emptyReqMeta c1Req c3DB
    (by
      intro p hp
      simp only [c3DB, Option.some.injEq] at hp
      rw [← hp]
      exact ⟨by simp [c3Profile, freshProfile], by simp [c3Profile, freshProfile]⟩)

/-- C3: evaluation of the code at the failing input.  A profile that
enters uploadFaceImage with upload_count_today = 1 and a valid small
file completes the whole submit successfully (the processing call
returns the new URL), yet upload_count_today is still 1 afterwards and
face_state was never set to pending on the way: the profiles update at
ProfileService.ts lines 145-151 passes the un-awaited builder
`supabase.rpc(increment, x 1)` — a function no migration defines — as
the column value, so the row store rejects that update and the
unchecked error lets execution continue. -/
theorem C3_counter_not_incremented :
    (uploadFaceImage 1000 "u1" "up-1" smallPng emptyReqMeta c3DB).1 =
      SubmitResult.ok (publicUrl (processedPathFor "u1" 1)) ∧
    ((uploadFaceImage 1000 "u1" "up-1" smallPng emptyReqMeta c3DB).2.profile.map
      Profile.upload_count_today) = Option.some 1 := by
  have hck : checkUploadLimit 1000 c3DB = ((true, 2), c3DB) := by
    rw [checkUploadLimit_eq_spec]
    decide
  unfold uploadFaceImage
  rw [hck]
  decide

/-- C5: admission rejects exactly when the file exceeds 5 MiB or its
MIME type is outside the allowed set; the size rule is checked first,
so a file failing both is rejected with the size reason; and the
server-side re-validation inside the processing function applies the
identical rule: it agrees with the local validator everywhere, and the
processing function returns a non-ok response precisely when that
validator rejects the downloaded blob. -/
theorem C5_admission_rule (s : ℕ) (m : String) (now : ℤ) (req : ProcessReq)
    (db : DB) (blob : Blob) :
    ((validateLocal s m).isSome = true ↔ (s > 5 * 1024 * 1024 ∨ m ∉ allowedTypes)) ∧
    (s > 5 * 1024 * 1024 → validateLocal s m = Option.some "File size exceeds 5MB limit") ∧
    validateServer s m = validateLocal s m ∧
    (db.download req.raw_path = Option.some blob →
      ((processFace now req db).1.isOk = false ↔
        (validateServer blob.bytes.length blob.contentType).isSome = true)) := by
  refine ⟨?_, ?_, rfl, ?_⟩
  · unfold validateLocal sizeLimit
    split_ifs with h1 h2
    · exact iff_of_true rfl (Or.inl h1)
    · refine iff_of_false (by simp) ?_
      push_neg
      exact ⟨by omega, by simpa using h2⟩
    · exact iff_of_true rfl (Or.inr (by simpa using h2))
  · intro h
    unfold validateLocal sizeLimit
    rw [if_pos h]
  · intro hdl
    by_cases hsz : blob.bytes.length > sizeLimit
    · rw [processFace_reject_size now req db blob hdl hsz]
      simp [ProcessResult.isOk, validateServer, hsz]
    · cases hmt : allowedTypes.contains blob.contentType with
      | false =>
          have hm : blob.contentType ∉ allowedTypes := by simpa using hmt
          rw [processFace_reject_mime now req db blob hdl hsz hmt]
          simp [ProcessResult.isOk, validateServer, hsz, hm]
      | true =>
          have hm : blob.contentType ∈ allowedTypes := by simpa using hmt
          rw [processFace_ok now req db blob hdl hsz hmt]
          simp [ProcessResult.isOk, validateServer, hsz, hm]

/-- C5 witness: the size implication and the server-side agreement
discharged at concrete inputs (an oversized file that also has a bad
type is rejected with the size reason; a concrete state whose blob has
a disallowed type makes the processing function answer non-ok). -/
theorem C5_admission_rule_witness :
    validateLocal (5 * 1024 * 1024 + 1) "text/plain" =
      Option.some "File size exceeds 5MB limit" ∧
    ((processFace 0 c1Req c5DB).1.isOk = false ↔
     (validateServer 1 "text/plain").isSome = true) :=
  ⟨(C5_admission_rule (5 * 1024 * 1024 + 1) "text/plain" 0 c1Req c5DB
      ({ bytes := [], contentType := "" })).2.1 (by omega),
   (C5_admission_rule 1 "text/plain" 0 c1Req c5DB
      ({ bytes := [1], contentType := "text/plain" })).2.2.2 (by decide)⟩

/-- C6: when the server-side re-validation of the downloaded blob
fails, the processing function answers a 400 error (with the size
message when the size rule failed, the short type message otherwise),
the matching UploadLog rows move to outcome rejected carrying the
specific reason, and neither the storage bucket nor the profile row is
touched. -/
theorem C6_server_rejection (now : ℤ) (req : ProcessReq) (db : DB) (blob : Blob) (r : String)
    (hdl : db.download req.raw_path = Option.some blob)
    (hv : validateServer blob.bytes.length blob.contentType = Option.some r) :
    (processFace now req db).1 =
      ProcessResult.err 400 (if blob.bytes.length > sizeLimit
        then "File size exceeds 5MB limit" else "Invalid file type") ∧
    (processFace now req db).2.storage = db.storage ∧
    (processFace now req db).2.profile = db.profile ∧
    (processFace now req db).2.logs = updateLogs db.logs req.upload_id (fun l =>
      { l with outcome := Outcome.rejected, reason := Option.some r }) := by
  by_cases hsz : blob.bytes.length > sizeLimit
  · have hr : r = "File size exceeds 5MB limit" := by
      unfold validateServer at hv
      rw [if_pos hsz] at hv
      exact (Option.some_inj.mp hv).symm
    rw [processFace_reject_size now req db blob hdl hsz]
    subst hr
    exact ⟨by rw [if_pos hsz], rfl, rfl, rfl⟩
  · cases hmt : allowedTypes.contains blob.contentType with
    | true =>
        exfalso
        unfold validateServer at hv
        rw [if_neg hsz, if_neg (not_not_intro hmt)] at hv
        exact Option.noConfusion hv
    | false =>
        have hr : r = "Invalid file type. Only JPG, PNG, and WebP allowed." := by
          unfold validateServer at hv
          rw [if_neg hsz, if_pos (fun hc => by rw [hmt] at hc; cases hc)] at hv
          exact (Option.some_inj.mp hv).symm
        rw [processFace_reject_mime now req db blob hdl hsz hmt]
        subst hr
        exact ⟨by rw [if_neg hsz], rfl, rfl, rfl⟩

/-- C6 witness: a concrete pending upload whose stored blob has MIME
type text/plain is rejected server-side with the specific reason. -/
theorem C6_server_rejection_witness :
    c5DB.download c1Req.raw_path =
      Option.some ({ bytes := [1], contentType := "text/plain" }) ∧
    validateServer 1 "text/plain" =
      Option.some "Invalid file type. Only JPG, PNG, and WebP allowed." ∧
    ((processFace 0 c1Req c5DB).1 =
      ProcessResult.err 400 (if (1 : ℕ) > sizeLimit
        then "File size exceeds 5MB limit" else "Invalid file type") ∧
     (processFace 0 c1Req c5DB).2.storage = c5DB.storage ∧
     (processFace 0 c1Req c5DB).2.profile = c5DB.profile ∧
     (processFace 0 c1Req c5DB).2.logs = updateLogs c5DB.logs c1Req.upload_id (fun l =>
       { l with outcome := Outcome.rejected
                reason := Option.some "Invalid file type. Only JPG, PNG, and WebP allowed." })) :=
  ⟨by decide, by decide,
   C6_server_rejection 0 c1Req c5DB ({ bytes := [1], contentType := "text/plain" })
     "Invalid file type. Only JPG, PNG, and WebP allowed." (by decide) (by decide)⟩

/-- A successful processing call on a state that has a profile row
leaves a profile row whose face_version is the old one plus one. -/
theorem processFace_isOk_version (now : ℤ) (r : ProcessReq) (db : DB) (p : Profile)
    (hp : db.profile = Option.some p)
    (hok : (processFace now r db).1.isOk = true) :
    ∃ q, (processFace now r db).2.profile = Option.some q ∧
      q.face_version = p.face_version + 1 := by
  cases hdl : db.download r.raw_path with
  | none =>
      rw [processFace_download_fail now r db hdl] at hok
      exact absurd hok (by simp [ProcessResult.isOk])
  | some blob =>
      by_cases hsz : blob.bytes.length > sizeLimit
      · rw [processFace_reject_size now r db blob hdl hsz] at hok
        exact absurd hok (by simp [ProcessResult.isOk])
      · cases hmt : allowedTypes.contains blob.contentType with
        | false =>
            rw [processFace_reject_mime now r db blob hdl hsz hmt] at hok
            exact absurd hok (by simp [ProcessResult.isOk])
        | true =>
            rw [processFace_ok now r db blob hdl hsz hmt]
            refine ⟨_, by rw [hp], ?_⟩
            simp [currentVersion, hp]

/-- C7: starting from any state with a profile row, N sequentially
executed successful processing calls leave face_version at its starting
value plus N (each call computes new_version as the then-current
face_version plus one and writes it back). -/
theorem C7_version_plus_n (now : ℤ) (reqs : List ProcessReq) (db : DB) (p : Profile)
    (hp : db.profile = Option.some p)
    (hok : seqOk now reqs db = true) :
    ∃ q, (processSeq now reqs db).profile = Option.some q ∧
      q.face_version = p.face_version + reqs.length := by
  induction reqs generalizing db p with
  | nil => exact ⟨p, by simpa [processSeq] using hp, by simp⟩
  | cons r rs ih =>
      rw [seqOk, Bool.and_eq_true] at hok
      obtain ⟨h1, h2⟩ := hok
      obtain ⟨q, hq, hv⟩ := processFace_isOk_version now r db p hp h1
      obtain ⟨q2, hq2, hv2⟩ := ih (processFace now r db).2 q hq h2
      refine ⟨q2, by simpa [processSeq] using hq2, ?_⟩
      rw [hv2, hv]
      simp
      omega

/-- C7 witness: two consecutive successful calls on a fresh profile
take face_version from 0 to 2. -/
theorem C7_version_plus_n_witness :
    c7DB.profile = Option.some (freshProfile 0) ∧
    seqOk 0 [c1Req, c1Req] c7DB = true ∧
    (∃ q, (processSeq 0 [c1Req, c1Req] c7DB).profile = Option.some q ∧
      q.face_version = (freshProfile 0).face_version + [c1Req, c1Req].length) :=
  ⟨rfl, by decide, C7_version_plus_n 0 [c1Req, c1Req] c7DB (freshProfile 0) rfl (by decide)⟩

/-- JS `x || 0` coincides with defaulting an absent value to 0, because
the only falsy number it replaces is 0 itself. -/
theorem jsOr_zero_default (x : Option ℚ) : jsOr x 0 = x.getD 0 := by
  cases x with
  | none => rfl
  | some v => by_cases h : v = 0 <;> simp [jsOr, h]

/-- C8 (amended): on a successful processing call the normalized meta
is stored on the profile and returned to the caller; its width and
height are fixed at 512; a missing transform field takes its default
(scale 1, rotation 0, offsetX 0, offsetY 0); present rotation and
offset values are kept, including zero (their default equals zero, so
the JS falsy fallback is invisible for them); a present scale is kept
only when it is nonzero — a supplied scale of 0 falls back to the
default 1.0. -/
theorem C8_meta_normalization (now : ℤ) (req : ProcessReq) (db : DB) (blob : Blob) (p : Profile)
    (hdl : db.download req.raw_path = Option.some blob)
    (hsz : ¬ blob.bytes.length > sizeLimit)
    (hmt : allowedTypes.contains blob.contentType = true)
    (hp : db.profile = Option.some p) :
    (processFace now req db).1 =
      ProcessResult.ok (publicUrl (processedPathFor req.user_id (p.face_version + 1)))
        (p.face_version + 1) (normalizeMeta req.face_meta) ∧
    ((processFace now req db).2.profile.map Profile.face_meta) =
      Option.some (normalizeMeta req.face_meta) ∧
    (normalizeMeta req.face_meta).width = Option.some 512 ∧
    (normalizeMeta req.face_meta).height = Option.some 512 ∧
    (normalizeMeta req.face_meta).rotation = (req.face_meta.bind ReqMeta.rotation).getD 0 ∧
    (normalizeMeta req.face_meta).offsetX = (req.face_meta.bind ReqMeta.offsetX).getD 0 ∧
    (normalizeMeta req.face_meta).offsetY = (req.face_meta.bind ReqMeta.offsetY).getD 0 ∧
    (∀ v : ℚ, req.face_meta.bind ReqMeta.scale = Option.some v → v ≠ 0 →
      (normalizeMeta req.face_meta).scale = v) ∧
    (req.face_meta.bind ReqMeta.scale = Option.none →
      (normalizeMeta req.face_meta).scale = 1) := by
  have hver : currentVersion db = p.face_version := by simp [currentVersion, hp]
  rw [processFace_ok now req db blob hdl hsz hmt]
  refine ⟨by rw [hver], by simp [hp], rfl, rfl,
    jsOr_zero_default _, jsOr_zero_default _, jsOr_zero_default _, ?_, ?_⟩
  · intro v hv hne
    simp [normalizeMeta, jsOr, hv, hne]
  · intro hv
    simp [normalizeMeta, jsOr, hv]

/-- C8 counterexample: the claim as stated is false — a transform whose
scale field is present with value 0 does not keep its supplied value:
the normalizer replaces it with the default 1.0 (JS `||` treats 0 as
falsy). -/
theorem C8_counterexample :
    (normalizeMeta (Option.some zeroScaleMeta)).scale = 1 ∧ (1 : ℚ) ≠ 0 := by
  exact ⟨by decide, by decide⟩

/-- C8 witness: a successful concrete call with scale 3/2, rotation 10,
explicit zero offsetX and missing offsetY. -/
theorem C8_meta_normalization_witness :
    (processFace 0 c8Req c7DB).1 =
      ProcessResult.ok (publicUrl (processedPathFor c8Req.user_id ((freshProfile 0).face_version + 1)))
        ((freshProfile 0).face_version + 1) (normalizeMeta c8Req.face_meta) ∧
    ((processFace 0 c8Req c7DB).2.profile.map Profile.face_meta) =
      Option.some (normalizeMeta c8Req.face_meta) ∧
    (normalizeMeta c8Req.face_meta).width = Option.some 512 ∧
    (normalizeMeta c8Req.face_meta).height = Option.some 512 ∧
    (normalizeMeta c8Req.face_meta).rotation = (c8Req.face_meta.bind ReqMeta.rotation).getD 0 ∧
    (normalizeMeta c8Req.face_meta).offsetX = (c8Req.face_meta.bind ReqMeta.offsetX).getD 0 ∧
    (normalizeMeta c8Req.face_meta).offsetY = (c8Req.face_meta.bind ReqMeta.offsetY).getD 0 ∧
    (∀ v : ℚ, c8Req.face_meta.bind ReqMeta.scale = Option.some v → v ≠ 0 →
      (normalizeMeta c8Req.face_meta).scale = v) ∧
    (c8Req.face_meta.bind ReqMeta.scale = Option.none →
      (normalizeMeta c8Req.face_meta).scale = 1) :=
  C8_meta_normalization 0 c8Req c7DB ({ bytes := [1, 2, 3], contentType := "image/png" })
    (freshProfile 0) (by decide) (by decide) (by decide) rfl

/-- When the limiter allows the attempt but the file is oversized, the
orchestrator stops at local admission: the error is the size message
and the resulting state is exactly the post-state of the limiter. -/
theorem uploadFaceImage_size_reject (now : ℤ) (userId uploadId : String) (file : FileInput)
    (fm : ReqMeta) (db : DB)
    (hallow : (checkUploadLimit now db).1.1 = true)
    (hsz : file.bytes.length > sizeLimit) :
    uploadFaceImage now userId uploadId file fm db =
      (SubmitResult.err "File size exceeds 5MB limit", (checkUploadLimit now db).2) := by
  have hval : validateLocal file.bytes.length file.type =
      Option.some "File size exceeds 5MB limit" := by
    unfold validateLocal
    rw [if_pos hsz]
  unfold uploadFaceImage
  dsimp only
  rw [hallow, hval, if_neg (by simp)]

/-- C9 (amended): when local admission rejects an oversized file, the
submit call returns the error "File size exceeds 5MB limit", no
UploadLog row is created and no raw blob is stored; the profile row is
unchanged except that the rate-limit check that runs first may already
have performed its lazy 24h reset of upload_count_today and
last_upload_reset. -/
theorem C9_local_size_rejection (now : ℤ) (userId uploadId : String) (file : FileInput)
    (fm : ReqMeta) (db : DB)
    (hallow : (checkUploadLimit now db).1.1 = true)
    (hsz : file.bytes.length > sizeLimit) :
    uploadFaceImage now userId uploadId file fm db =
      (SubmitResult.err "File size exceeds 5MB limit", (checkUploadLimit now db).2) ∧
    (checkUploadLimit now db).2.logs = db.logs ∧
    (checkUploadLimit now db).2.storage = db.storage :=
  ⟨uploadFaceImage_size_reject now userId uploadId file fm db hallow hsz,
   (checkUploadLimit_logs_storage now db).1,
   (checkUploadLimit_logs_storage now db).2⟩

/-- C9 witness: a 5 MiB + 1 byte file submitted inside an active
window with one upload already used. -/
theorem C9_local_size_rejection_witness :
    (checkUploadLimit 1000 c3DB).1.1 = true ∧
    bigPng.bytes.length > sizeLimit ∧
    (uploadFaceImage 1000 "u1" "up-1" bigPng emptyReqMeta c3DB =
      (SubmitResult.err "File size exceeds 5MB limit", (checkUploadLimit 1000 c3DB).2) ∧
     (checkUploadLimit 1000 c3DB).2.logs = c3DB.logs ∧
     (checkUploadLimit 1000 c3DB).2.storage = c3DB.storage) :=
  ⟨by rw [checkUploadLimit_eq_spec]; decide,
   by simp [bigPng],
   C9_local_size_rejection 1000 "u1" "up-1" bigPng emptyReqMeta c3DB
     (by rw [checkUploadLimit_eq_spec]; decide) (by simp [bigPng])⟩

/-- C9 counterexample: the claim as stated is false — submitting the
oversized file right after the 24h window has expired does create no
log row and no blob, but the profile row IS changed by that attempt:
the lazy reset of the limiter zeroes upload_count_today and re-stamps
last_upload_reset before admission rejects the file. -/
theorem C9_counterexample :
    (uploadFaceImage 90000000 "u1" "up-1" bigPng emptyReqMeta c9DB).1 =
      SubmitResult.err "File size exceeds 5MB limit" ∧
    (uploadFaceImage 90000000 "u1" "up-1" bigPng emptyReqMeta c9DB).2.logs = c9DB.logs ∧
    (uploadFaceImage 90000000 "u1" "up-1" bigPng emptyReqMeta c9DB).2.storage = c9DB.storage ∧
    (uploadFaceImage 90000000 "u1" "up-1" bigPng emptyReqMeta c9DB).2.profile ≠ c9DB.profile := by
  have hck : checkUploadLimit 90000000 c9DB =
      ((true, 3), { c9DB with profile := Option.some ({ c9Profile with
        upload_count_today := 0, last_upload_reset := 90000000 }) }) := by
    rw [checkUploadLimit_eq_spec]
    decide
  have h := uploadFaceImage_size_reject 90000000 "u1" "up-1" bigPng emptyReqMeta c9DB
    (by rw [hck]) (by simp [bigPng])
  rw [h, hck]
  exact ⟨rfl, rfl, rfl, by decide⟩

/-- C10: on a successful processing call the blob stored at the
canonical processed path faces/(user_id)/(version).webp carries exactly
the bytes of the raw blob — no transformation of any kind — but is recorded
with content type image/webp regardless of the MIME type the raw blob
carries. -/
theorem C10_processed_bytes_unchanged (now : ℤ) (req : ProcessReq) (db : DB)
    (blob : Blob) (p : Profile)
    (hdl : db.download req.raw_path = Option.some blob)
    (hsz : ¬ blob.bytes.length > sizeLimit)
    (hmt : allowedTypes.contains blob.contentType = true)
    (hp : db.profile = Option.some p) :
    (processFace now req db).1.isOk = true ∧
    (processFace now req db).2.download (processedPathFor req.user_id (p.face_version + 1)) =
      Option.some ({ bytes := blob.bytes, contentType := "image/webp" }) ∧
    processedPathFor req.user_id (p.face_version + 1) =
      "faces/" ++ req.user_id ++ "/" ++ toString (p.face_version + 1) ++ ".webp" := by
  have hver : currentVersion db = p.face_version := by simp [currentVersion, hp]
  rw [processFace_ok now req db blob hdl hsz hmt]
  refine ⟨rfl, ?_, rfl⟩
  rw [hver]
  simp [DB.download, storagePutUpsert, List.lookup]

/-- C10 witness: a raw png is re-stored byte-for-byte at
faces/u1/1.webp with content type image/webp. -/
theorem C10_processed_bytes_unchanged_witness :
    (processFace 0 c1Req c7DB).1.isOk = true ∧
    (processFace 0 c1Req c7DB).2.download (processedPathFor c1Req.user_id
      ((freshProfile 0).face_version + 1)) =
      Option.some ({ bytes := [1, 2, 3], contentType := "image/webp" }) ∧
    processedPathFor c1Req.user_id ((freshProfile 0).face_version + 1) =
      "faces/" ++ c1Req.user_id ++ "/" ++ toString ((freshProfile 0).face_version + 1) ++ ".webp" :=
  C10_processed_bytes_unchanged 0 c1Req c7DB
    ({ bytes := [1, 2, 3], contentType := "image/png" }) (freshProfile 0)
    (by decide) (by decide) (by decide) rfl
